import Mathlib

/-!
# Verification of the Amazon Q LSP controller

Shallow embedding of `packages/core/src/amazonq/lsp/lspController.ts`
(class `LspController`) and proofs about its contract:

* `query` post-processing of chunks returned by the vector index,
* `buildIndex` flag lifecycle, error absorption and project-root choice,
* `install` manifest-dependency guard,
* `cleanup` idempotence.

JavaScript effects are made explicit: each controller method is a pure
function from its inputs and the outcome of its external calls (the
`LspClient` RPC facade, the file collector, the filesystem) to a result
together with a trace of the observable events it performs, in order.
-/

/- ### JavaScript string primitives used by the controller -/

/-- JavaScript truthiness of a string-or-undefined value: `undefined` and
the empty string are falsy, every other string is truthy.  Models the
conditions `chunk.context ? … : …`, `chunk.relativePath ? … : …` and
`chunk.programmingLanguage && …` in `lspController.ts:76-90`. -/
def strTruthy : Option String → Bool
  | none => false
  | some s => !s.data.isEmpty

/-- The JavaScript expression `x ? x : y` for a string-or-undefined `x`
with string fallback `y`. -/
def jsStrOr (x : Option String) (y : String) : String :=
  if strTruthy x then x.getD y else y

/-- Node `path.basename` on posix-style paths: drop trailing separators,
then keep the part after the last separator.  Used for
`path.basename(chunk.filePath)` at `lspController.ts:80` and `:88`. -/
def pathBasename (p : String) : String :=
  String.mk (((p.data.reverse.dropWhile (fun c => c == '/')).takeWhile (fun c => c != '/')).reverse)

/-- JavaScript default `Array.prototype.sort` comparison on strings:
lexicographic by code unit.  `lexLeChars xs ys` is true iff `xs` sorts no
later than `ys`. -/
def lexLeChars : List Char → List Char → Bool
  | [], _ => true
  | _ :: _, [] => false
  | x :: xs, y :: ys => if x < y then true else if x = y then lexLeChars xs ys else false

/-- The string ordering used by `projPaths.sort()` at `lspController.ts:114`. -/
def jsStringLe (a b : String) : Prop := lexLeChars a.data b.data = true

instance : DecidableRel jsStringLe :=
  fun a b => inferInstanceAs (Decidable (lexLeChars a.data b.data = true))

/-- `projPaths.sort()`: the sorted permutation of the workspace paths under
the JavaScript string order.  JavaScript guarantees exactly that the result
is a sorted permutation of the input; since the order is total and
antisymmetric that determines the result uniquely, so an insertion sort is
a faithful model. -/
def jsSortStrings (l : List String) : List String :=
  List.insertionSort jsStringLe l

/- ### Properties of the JavaScript string order -/

theorem lexLeChars_total (xs : List Char) :
    ∀ ys, lexLeChars xs ys = true ∨ lexLeChars ys xs = true := by
  induction xs with
  | nil => intro ys; left; rfl
  | cons x xs ih =>
    intro ys
    cases ys with
    | nil => right; rfl
    | cons y ys =>
      rcases lt_trichotomy x y with h | h | h
      · left; simp [lexLeChars, h]
      · subst h
        rcases ih ys with h2 | h2
        · left; simp [lexLeChars, lt_self_iff_false, h2]
        · right; simp [lexLeChars, lt_self_iff_false, h2]
      · right; simp [lexLeChars, h]

theorem lexLeChars_trans (xs : List Char) :
    ∀ ys zs, lexLeChars xs ys = true → lexLeChars ys zs = true → lexLeChars xs zs = true := by
  induction xs with
  | nil => intro ys zs h1 h2; rfl
  | cons x xs ih =>
    intro ys zs h1 h2
    cases ys with
    | nil => simp [lexLeChars] at h1
    | cons y ys =>
      cases zs with
      | nil => simp [lexLeChars] at h2
      | cons z zs =>
        rcases lt_trichotomy x y with hxy | hxy | hxy
        · rcases lt_trichotomy y z with hyz | hyz | hyz
          · simp [lexLeChars, lt_trans hxy hyz]
          · subst hyz; simp [lexLeChars, hxy]
          · exfalso; simp [lexLeChars, lt_asymm hyz, hyz.ne'] at h2
        · subst hxy
          rcases lt_trichotomy x z with hyz | hyz | hyz
          · simp [lexLeChars, hyz]
          · subst hyz
            simp only [lexLeChars, lt_self_iff_false, if_false, if_pos rfl] at h1 h2 ⊢
            exact ih ys zs h1 h2
          · exfalso; simp [lexLeChars, lt_asymm hyz, hyz.ne'] at h2
        · exfalso; simp [lexLeChars, lt_asymm hxy, hxy.ne'] at h1

theorem lexLeChars_antisymm (xs : List Char) :
    ∀ ys, lexLeChars xs ys = true → lexLeChars ys xs = true → xs = ys := by
  induction xs with
  | nil =>
    intro ys h1 h2
    cases ys with
    | nil => rfl
    | cons y ys => simp [lexLeChars] at h2
  | cons x xs ih =>
    intro ys h1 h2
    cases ys with
    | nil => simp [lexLeChars] at h1
    | cons y ys =>
      rcases lt_trichotomy x y with hxy | hxy | hxy
      · exfalso; simp [lexLeChars, lt_asymm hxy, hxy.ne'] at h2
      · subst hxy
        simp only [lexLeChars, lt_self_iff_false, if_false, if_pos rfl] at h1 h2
        rw [ih ys h1 h2]
      · exfalso; simp [lexLeChars, lt_asymm hxy, hxy.ne'] at h1

instance : IsTrans String jsStringLe :=
  ⟨fun a b c h1 h2 => lexLeChars_trans a.data b.data c.data h1 h2⟩

instance : IsTotal String jsStringLe :=
  ⟨fun a b => lexLeChars_total a.data b.data⟩

instance : IsAntisymm String jsStringLe :=
  ⟨fun a b h1 h2 => String.ext (lexLeChars_antisymm a.data b.data h1 h2)⟩

/-- Sorting under a total antisymmetric order is permutation-invariant, so
the sorted workspace list is determined by the folder set alone. -/
theorem jsSortStrings_eq_of_perm (l₁ l₂ : List String) (h : l₁.Perm l₂) :
    jsSortStrings l₁ = jsSortStrings l₂ :=
  List.eq_of_perm_of_sorted
    ((List.perm_insertionSort jsStringLe l₁).trans
      (h.trans (List.perm_insertionSort jsStringLe l₂).symm))
    (List.sorted_insertionSort jsStringLe l₁)
    (List.sorted_insertionSort jsStringLe l₂)

/-- The canonical project root chosen by `buildIndex`
(`lspController.ts:114-117`): first element of the sorted workspace
folder list (`projPaths.sort()` followed by `projPaths[0]`). -/
def resolveProjectRoot (folders : List String) : String :=
  (jsSortStrings folders).headD ""

/- ### Data model: chunks and normalized query results -/

/-- `Chunk` (`lspController.ts:21-27`): a unit of indexed content returned
by the vector-index query of the child process. -/
structure Chunk where
  filePath : String
  content : String
  context : Option String := none
  relativePath : Option String := none
  programmingLanguage : Option String := none
deriving DecidableEq

/-- The `programmingLanguage` sub-object of a `RelevantTextDocument`. -/
structure ProgLanguage where
  languageName : String
deriving DecidableEq

/-- The normalized record produced by `LspController.query`
(`RelevantTextDocument` of `@amzn/codewhisperer-streaming`), restricted to
the fields the controller populates. -/
structure RelevantTextDocument where
  text : String
  relativeFilePath : String
  programmingLanguage : Option ProgLanguage := none
deriving DecidableEq

/-- Post-processing of a single chunk inside `LspController.query`
(`lspController.ts:75-91`): prefer `context` over `content` for the text,
fall back to the basename of `filePath` when `relativePath` is falsy, and
attach a language tag only when `programmingLanguage` is truthy and not
the sentinel `unknown`. -/
def chunkToRelevantTextDocument (chunk : Chunk) : RelevantTextDocument :=
  let text := jsStrOr chunk.context chunk.content
  let rel := jsStrOr chunk.relativePath (pathBasename chunk.filePath)
  if strTruthy chunk.programmingLanguage && decide (chunk.programmingLanguage ≠ some "unknown") then
    { text := text, relativeFilePath := rel,
      programmingLanguage := some ⟨chunk.programmingLanguage.getD ""⟩ }
  else
    { text := text, relativeFilePath := rel }

/-- `LspController.query` (`lspController.ts:72-93`) as a function of the
result of `LspClient.instance.queryVectorIndex`: `none` models the
`undefined` internal-error signal, on which the optional-chaining
`chunks?.forEach` pushes nothing and the empty list is returned. -/
def LspController.query (queryVectorIndexResult : Option (List Chunk)) :
    List RelevantTextDocument :=
  match queryVectorIndexResult with
  | none => []
  | some chunks => chunks.map chunkToRelevantTextDocument

/- ### Claims C5, C6, C7, C10: query normalization -/

theorem strTruthy_some_of_ne (c : String) (hne : c ≠ "") : strTruthy (some c) = true := by
  cases hd : c.data with
  | nil => exact absurd (String.ext (by simpa using hd)) hne
  | cons x xs => simp [strTruthy, hd]

/-- Claim C5: a chunk whose `context` field holds a (truthy) string is
normalized with that context string as its text payload, in preference to
the raw `content`. -/
theorem c5_context_preferred_over_content (chunk : Chunk) (c : String)
    (hc : chunk.context = some c) (hne : c ≠ "") :
    (LspController.query (some [chunk])).map RelevantTextDocument.text = [c] := by
  have htext : jsStrOr chunk.context chunk.content = c := by
    rw [hc, jsStrOr, strTruthy_some_of_ne c hne]; rfl
  simp only [LspController.query, List.map_cons, List.map_nil, chunkToRelevantTextDocument]
  rw [htext]
  split <;> rfl

/-- Witness for C5: the chunk with `context = "CTX"` and `content = "RAW"`
normalizes to text `"CTX"`. -/
theorem c5_witness :
    (LspController.query (some [{ filePath := "/f", content := "RAW", context := some "CTX" }])).map
      RelevantTextDocument.text = ["CTX"] :=
  c5_context_preferred_over_content
    { filePath := "/f", content := "RAW", context := some "CTX" } "CTX" rfl (by decide)

/-- Claim C6: a chunk whose `programmingLanguage` is absent or the sentinel
`"unknown"` gets no language tag, and a chunk with no `relativePath` gets
the basename of its absolute `filePath` as relative path. -/
theorem c6_unknown_language_and_basename_fallback (chunk : Chunk) :
    ((chunk.programmingLanguage = none ∨ chunk.programmingLanguage = some "unknown") →
      (chunkToRelevantTextDocument chunk).programmingLanguage = none) ∧
    (chunk.relativePath = none →
      (chunkToRelevantTextDocument chunk).relativeFilePath = pathBasename chunk.filePath) := by
  constructor
  · intro hlang
    rcases hlang with h | h <;>
      simp [chunkToRelevantTextDocument, h, strTruthy]
  · intro hrel
    unfold chunkToRelevantTextDocument
    split <;> simp [jsStrOr, hrel, strTruthy]

/-- Witness for C6: the chunk `filePath = "/x/y.py"`, `content = "C"`,
`programmingLanguage = "unknown"` normalizes with no language tag and
relative path `"y.py"`. -/
theorem c6_witness :
    (chunkToRelevantTextDocument
        { filePath := "/x/y.py", content := "C", programmingLanguage := some "unknown" }).programmingLanguage
      = none ∧
    (chunkToRelevantTextDocument
        { filePath := "/x/y.py", content := "C", programmingLanguage := some "unknown" }).relativeFilePath
      = "y.py" :=
  ⟨(c6_unknown_language_and_basename_fallback _).1 (Or.inr rfl),
   ((c6_unknown_language_and_basename_fallback
      { filePath := "/x/y.py", content := "C", programmingLanguage := some "unknown" }).2 rfl).trans
     (by decide)⟩

/-- Claim C7: when the underlying vector-index query yields `undefined`
(the not-Ready / internal-error signal), `query` returns the empty list of
normalized records instead of failing the caller. -/
theorem c7_query_not_ready_empty : LspController.query none = [] := rfl

/-- Claim C10: presence of the optional chunk fields is decided by
JavaScript truthiness, so an empty-string `context` falls back to
`content` and an empty-string `relativePath` falls back to the basename of
`filePath`. -/
theorem c10_truthiness_fallbacks (chunk : Chunk) :
    (chunk.context = some "" →
      (chunkToRelevantTextDocument chunk).text = chunk.content) ∧
    (chunk.relativePath = some "" →
      (chunkToRelevantTextDocument chunk).relativeFilePath = pathBasename chunk.filePath) := by
  constructor
  · intro hctx
    unfold chunkToRelevantTextDocument
    split <;> simp [jsStrOr, hctx, strTruthy]
  · intro hrel
    unfold chunkToRelevantTextDocument
    split <;> simp [jsStrOr, hrel, strTruthy]

/-- Witness for C10: a chunk with empty-string `context` and empty-string
`relativePath` uses `content` and the basename of `filePath`. -/
theorem c10_witness :
    (chunkToRelevantTextDocument
        { filePath := "/a/b.ts", content := "RAW", context := some "", relativePath := some "" }).text
      = "RAW" ∧
    (chunkToRelevantTextDocument
        { filePath := "/a/b.ts", content := "RAW", context := some "", relativePath := some "" }).relativeFilePath
      = "b.ts" :=
  ⟨(c10_truthiness_fallbacks _).1 rfl,
   ((c10_truthiness_fallbacks
      { filePath := "/a/b.ts", content := "RAW", context := some "", relativePath := some "" }).2 rfl).trans
     (by decide)⟩

/- ### buildIndex: configuration, environment and event traces -/

/-- `BuildIndexConfig` (`lspController.ts:35-39`). -/
structure BuildIndexConfig where
  startUrl : Option String := none
  maxIndexSize : ℚ
  isVectorIndexEnabled : Bool
deriving DecidableEq

/-- A JavaScript thrown value: either an `Error` instance (with `name` and
`message`) or an arbitrary other value, kept as its string rendering.
Mirrors the `error instanceof Error` tests at `lspController.ts:162-163`. -/
inductive Thrown where
  | jsError (name : String) (message : String)
  | value (rendered : String)
deriving DecidableEq

/-- The `reason` tag recorded for a thrown value:
`error instanceof Error ? error.name : 'Unknown'` (`lspController.ts:162`). -/
def thrownReason : Thrown → String
  | .jsError name _ => name
  | .value _ => "Unknown"

/-- The rendering of a thrown value inside `reasonDesc`:
`error instanceof Error ? error.message : error` (`lspController.ts:163`). -/
def thrownDesc : Thrown → String
  | .jsError _ message => message
  | .value rendered => rendered

/-- Outcome of an awaited external call: the promise resolved with a value
or rejected with a thrown value. -/
inductive CallResult (α : Type) where
  | ok (value : α)
  | thrown (e : Thrown)
deriving DecidableEq

/-- One file collected by `collectFilesForIndex`: its `fileUri.fsPath` and
`fileSizeBytes`, the two fields `buildIndex` reads (`lspController.ts:124-130`). -/
structure CollectedFile where
  fsPath : String
  fileSizeBytes : ℚ
deriving DecidableEq

/-- `getLspServerUsage` sample (`lspController.ts:134,139-140`). -/
structure UsageSample where
  cpuUsage : ℚ
  memoryUsage : ℚ
deriving DecidableEq

/-- The `amazonq_indexWorkspace` telemetry event, with exactly the fields
`buildIndex` populates (`lspController.ts:135-143,146-152,157-164`). -/
structure IndexWorkspaceEvent where
  duration : ℚ
  result : String
  amazonqIndexFileCount : Nat
  amazonqIndexFileSizeInMB : ℚ
  amazonqIndexMemoryUsageInMB : Option ℚ := none
  amazonqIndexCpuUsagePercentage : Option ℚ := none
  credentialStartUrl : Option String := none
  reason : Option String := none
  reasonDesc : Option String := none
deriving DecidableEq

/-- Observable events of one `buildIndex` invocation, in program order:
log lines, writes to the shared `_isIndexingInProgress` flag, and the
awaited external calls. -/
inductive Ev where
  | log (msg : String)
  | setFlag (value : Bool)
  | callCollect (roots : List String) (maxSizeBytes : ℚ)
  | callBuildIndex (paths : List String) (projRoot : String) (mode : String)
  | callGetUsage
  | emit (e : IndexWorkspaceEvent)
  | callGetRepoMap
deriving DecidableEq

/-- The inputs and external-call outcomes of one `buildIndex` invocation:
the workspace folders seen at `vscode.workspace.workspaceFolders`, the
results of `collectFilesForIndex` and `LspClient.instance.buildIndex`, the
optional usage sample, the repo-map diagnostic string, and the elapsed
time measured via `performance.now()`.  `getLspServerUsage` and
`getRepoMapJSON` are modelled as non-rejecting. -/
structure BuildEnv where
  workspaceFolders : List String
  collectResult : CallResult (List CollectedFile)
  buildIndexResult : CallResult Bool
  usage : Option UsageSample
  repoMapJSON : String
  elapsedMs : ℚ

/-- The `try` block of `buildIndex` (`lspController.ts:115-153`) minus the
initial flag write: the events it performs and, if one of the awaited
calls rejected, the thrown value that escapes to the `catch` clause. -/
def buildIndexTrySteps (cfg : BuildIndexConfig) (env : BuildEnv)
    (projPaths : List String) (projRoot : String) : List Ev × Option Thrown :=
  let collectEv := Ev.callCollect projPaths (cfg.maxIndexSize * 1024 * 1024)
  match env.collectResult with
  | .thrown e => ([collectEv], some e)
  | .ok files =>
    let totalSizeBytes := files.foldl (fun acc f => acc + f.fileSizeBytes) 0
    let mode := if cfg.isVectorIndexEnabled then "all" else "default"
    let buildEv := Ev.callBuildIndex (files.map CollectedFile.fsPath) projRoot mode
    let foundEv := Ev.log "LspController: Found files in current project"
    match env.buildIndexResult with
    | .thrown e => ([collectEv, foundEv, buildEv], some e)
    | .ok true =>
        ([collectEv, foundEv, buildEv,
          Ev.log "LspController: Finish building index of project",
          Ev.callGetUsage,
          Ev.emit { duration := env.elapsedMs, result := "Succeeded",
                    amazonqIndexFileCount := files.length,
                    amazonqIndexFileSizeInMB := totalSizeBytes / (1024 * 1024),
                    amazonqIndexMemoryUsageInMB :=
                      env.usage.map (fun u => u.memoryUsage / (1024 * 1024)),
                    amazonqIndexCpuUsagePercentage := env.usage.map UsageSample.cpuUsage,
                    credentialStartUrl := cfg.startUrl }], none)
    | .ok false =>
        ([collectEv, foundEv, buildEv,
          Ev.log "LspController: Failed to build index of project",
          Ev.emit { duration := env.elapsedMs, result := "Failed",
                    amazonqIndexFileCount := 0,
                    amazonqIndexFileSizeInMB := 0,
                    reason := some "Unknown" }], none)

/-- The telemetry event emitted by the `catch` clause for a thrown value
(`lspController.ts:157-164`). -/
def catchEvent (elapsedMs : ℚ) (e : Thrown) : IndexWorkspaceEvent :=
  { duration := elapsedMs, result := "Failed",
    amazonqIndexFileCount := 0, amazonqIndexFileSizeInMB := 0,
    reason := some (thrownReason e),
    reasonDesc := some ("Error when building index. " ++ thrownDesc e) }

/-- Result of one `buildIndex` invocation: its event trace, the value of
the shared `_isIndexingInProgress` flag when it returns (given the value
`flag0` the flag had on entry), and the value it rejects with, if any. -/
structure BuildRun where
  trace : List Ev
  finalFlag : Bool
  threw : Option Thrown
deriving DecidableEq

/-- `LspController.buildIndex` (`lspController.ts:106-171`).  Note that
the method never reads `_isIndexingInProgress`: `flag0` only survives into
`finalFlag` on the empty-workspace early return, which happens before the
`try` block.  Otherwise the flag is set `true` inside `try`, the `catch`
clause absorbs any thrown value into a log line plus a Failed telemetry
event, and the `finally` clause clears the flag and then retrieves the
repo-map diagnostic, so the method always resolves (`threw = none`). -/
def LspController.buildIndex (cfg : BuildIndexConfig) (env : BuildEnv)
    (flag0 : Bool) : BuildRun :=
  let startEv := Ev.log "LspController: Starting to build index of project"
  if env.workspaceFolders.isEmpty then
    { trace := [startEv,
                Ev.log "LspController: Skipping building index. No projects found in workspace"],
      finalFlag := flag0, threw := none }
  else
    let projPaths := jsSortStrings env.workspaceFolders
    let projRoot := projPaths.headD ""
    let stepped := buildIndexTrySteps cfg env projPaths projRoot
    let catchEvs : List Ev :=
      match stepped.2 with
      | none => []
      | some e => [Ev.log "LspController: Failed to build index of project",
                   Ev.emit (catchEvent env.elapsedMs e)]
    { trace := startEv :: Ev.setFlag true ::
        (stepped.1 ++ catchEvs ++
          [Ev.setFlag false, Ev.callGetRepoMap,
           Ev.log ("File path " ++ env.repoMapJSON)]),
      finalFlag := false, threw := none }

/- ### Claims C2, C3, C8: buildIndex lifecycle -/

/-- Recognizes a write to the shared `_isIndexingInProgress` flag. -/
def isSetFlagEv : Ev → Bool
  | Ev.setFlag _ => true
  | _ => false

/-- The events `buildIndex` performs between the initial flag set and the
`finally` clause: the `try` block's calls and, when a call rejected, the
`catch` clause's log and telemetry emission. -/
def buildIndexMidEvents (cfg : BuildIndexConfig) (env : BuildEnv) : List Ev :=
  let projPaths := jsSortStrings env.workspaceFolders
  let stepped := buildIndexTrySteps cfg env projPaths (projPaths.headD "")
  stepped.1 ++
    (match stepped.2 with
     | none => []
     | some e => [Ev.log "LspController: Failed to build index of project",
                  Ev.emit (catchEvent env.elapsedMs e)])

theorem buildIndexMidEvents_no_setFlag (cfg : BuildIndexConfig) (env : BuildEnv) :
    (buildIndexMidEvents cfg env).all (fun e => !isSetFlagEv e) = true := by
  unfold buildIndexMidEvents buildIndexTrySteps
  rcases hc : env.collectResult with files | e
  · rcases hb : env.buildIndexResult with b | e
    · cases b <;> simp [isSetFlagEv]
    · simp [isSetFlagEv]
  · simp [isSetFlagEv]

theorem workspaceFolders_isEmpty_false (env : BuildEnv) (hne : env.workspaceFolders ≠ []) :
    env.workspaceFolders.isEmpty = false := by
  rcases h : env.workspaceFolders with _ | ⟨a, l⟩
  · exact absurd h hne
  · rfl

/-- Claim C2: on a non-empty workspace-folder list, `buildIndex` sets the
flag to true before any of its work, performs no other flag write until
its `finally` clause, clears the flag there on every outcome, and
returns with the flag false. -/
theorem c2_flag_set_for_duration_and_cleared (cfg : BuildIndexConfig) (env : BuildEnv)
    (flag0 : Bool) (hne : env.workspaceFolders ≠ []) :
    (LspController.buildIndex cfg env flag0).trace =
      Ev.log "LspController: Starting to build index of project" :: Ev.setFlag true ::
        (buildIndexMidEvents cfg env ++
          [Ev.setFlag false, Ev.callGetRepoMap,
           Ev.log ("File path " ++ env.repoMapJSON)]) ∧
    (buildIndexMidEvents cfg env).all (fun e => !isSetFlagEv e) = true ∧
    (LspController.buildIndex cfg env flag0).finalFlag = false := by
  have hne' := workspaceFolders_isEmpty_false env hne
  refine ⟨?_, buildIndexMidEvents_no_setFlag cfg env, ?_⟩
  · simp [LspController.buildIndex, buildIndexMidEvents, hne', List.append_assoc]
  · simp [LspController.buildIndex, hne']

/-- A concrete environment: one workspace folder, a successful collection
of one file, a successful child build, a usage sample. -/
def cfgA : BuildIndexConfig := { maxIndexSize := 100, isVectorIndexEnabled := false }

def envA : BuildEnv :=
  { workspaceFolders := ["/p"],
    collectResult := .ok [{ fsPath := "/p/a.ts", fileSizeBytes := 2048 }],
    buildIndexResult := .ok true,
    usage := some { cpuUsage := 12, memoryUsage := 3145728 },
    repoMapJSON := "repomap.json",
    elapsedMs := 5 }

/-- Witness for C2 at a concrete successful build. -/
theorem c2_witness :
    envA.workspaceFolders ≠ [] ∧
    (LspController.buildIndex cfgA envA false).finalFlag = false ∧
    (buildIndexMidEvents cfgA envA).all (fun e => !isSetFlagEv e) = true :=
  ⟨by decide,
   (c2_flag_set_for_duration_and_cleared cfgA envA false (by decide)).2.2,
   (c2_flag_set_for_duration_and_cleared cfgA envA false (by decide)).2.1⟩

/-- Claim C3: a value thrown by the file collection or by the child build
call is absorbed (`buildIndex` resolves normally), logged, and reported as
a telemetry event with `result = Failed`, the classified `reason` tag and
a human-readable `reasonDesc`; the flag clear and the repo-map snapshot
retrieval still run afterwards. -/
theorem c3_thrown_error_absorbed (cfg : BuildIndexConfig) (env : BuildEnv) (flag0 : Bool)
    (e : Thrown) (hne : env.workspaceFolders ≠ [])
    (herr : env.collectResult = .thrown e ∨
            ((∃ files, env.collectResult = .ok files) ∧ env.buildIndexResult = .thrown e)) :
    (LspController.buildIndex cfg env flag0).threw = none ∧
    (LspController.buildIndex cfg env flag0).trace =
      Ev.log "LspController: Starting to build index of project" :: Ev.setFlag true ::
        ((buildIndexTrySteps cfg env (jsSortStrings env.workspaceFolders)
            ((jsSortStrings env.workspaceFolders).headD "")).1 ++
          [Ev.log "LspController: Failed to build index of project",
           Ev.emit (catchEvent env.elapsedMs e),
           Ev.setFlag false, Ev.callGetRepoMap,
           Ev.log ("File path " ++ env.repoMapJSON)]) ∧
    (catchEvent env.elapsedMs e).result = "Failed" ∧
    (catchEvent env.elapsedMs e).reason = some (thrownReason e) ∧
    (catchEvent env.elapsedMs e).reasonDesc =
      some ("Error when building index. " ++ thrownDesc e) ∧
    (LspController.buildIndex cfg env flag0).finalFlag = false := by
  have hne' := workspaceFolders_isEmpty_false env hne
  have hstep : (buildIndexTrySteps cfg env (jsSortStrings env.workspaceFolders)
      ((jsSortStrings env.workspaceFolders).headD "")).2 = some e := by
    rcases herr with hc | ⟨⟨files, hc⟩, hb⟩
    · simp [buildIndexTrySteps, hc]
    · simp [buildIndexTrySteps, hc, hb]
  refine ⟨?_, ?_, rfl, rfl, rfl, ?_⟩
  · simp [LspController.buildIndex, hne']
  · simp only [LspController.buildIndex, hne', Bool.false_eq_true, if_false, hstep]
    simp [List.append_assoc]
  · simp [LspController.buildIndex, hne']

/-- A concrete environment whose file collection rejects with a
`TypeError`. -/
def envB : BuildEnv :=
  { workspaceFolders := ["/p"],
    collectResult := .thrown (Thrown.jsError "TypeError" "boom"),
    buildIndexResult := .ok true,
    usage := none,
    repoMapJSON := "repomap.json",
    elapsedMs := 7 }

/-- Witness for C3 at a concrete collection failure. -/
theorem c3_witness :
    envB.workspaceFolders ≠ [] ∧
    (LspController.buildIndex cfgA envB false).threw = none ∧
    (catchEvent envB.elapsedMs (Thrown.jsError "TypeError" "boom")).result = "Failed" ∧
    (catchEvent envB.elapsedMs (Thrown.jsError "TypeError" "boom")).reason = some "TypeError" ∧
    (LspController.buildIndex cfgA envB false).finalFlag = false := by
  have h := c3_thrown_error_absorbed cfgA envB false (Thrown.jsError "TypeError" "boom")
    (by decide) (Or.inl rfl)
  exact ⟨by decide, h.1, h.2.2.1, by decide, h.2.2.2.2.2⟩

/-- Claim C8: every child build call issued by `buildIndex` uses the first
element of the sorted workspace-folder list as project root; the root is
invariant under permutation of the folder list; and for the roots
`["/b", "/a"]` it is `"/a"`. -/
theorem c8_sorted_head_project_root (cfg : BuildIndexConfig) (env : BuildEnv) (flag0 : Bool) :
    (∀ paths root mode,
        Ev.callBuildIndex paths root mode ∈ (LspController.buildIndex cfg env flag0).trace →
          root = resolveProjectRoot env.workspaceFolders) ∧
    (∀ l₁ l₂ : List String, l₁.Perm l₂ → resolveProjectRoot l₁ = resolveProjectRoot l₂) ∧
    resolveProjectRoot ["/b", "/a"] = "/a" := by
  refine ⟨?_, ?_, by decide⟩
  · intro paths root mode hmem
    cases hfold : env.workspaceFolders.isEmpty with
    | true => simp [LspController.buildIndex, hfold] at hmem
    | false =>
      simp only [LspController.buildIndex, hfold, Bool.false_eq_true, if_false,
        buildIndexTrySteps] at hmem
      rcases hc : env.collectResult with files | e
      · rcases hb : env.buildIndexResult with b | e
        · cases b <;> simp [hc, hb] at hmem <;>
            simpa [resolveProjectRoot] using hmem.2.1
        · simp [hc, hb] at hmem
          simpa [resolveProjectRoot] using hmem.2.1
      · simp [hc] at hmem
  · intro l₁ l₂ h
    unfold resolveProjectRoot
    rw [jsSortStrings_eq_of_perm l₁ l₂ h]

/-- A concrete environment with two workspace folders given unsorted. -/
def envC : BuildEnv :=
  { workspaceFolders := ["/b", "/a"],
    collectResult := .ok [{ fsPath := "/a/f.ts", fileSizeBytes := 1 }],
    buildIndexResult := .ok true,
    usage := none,
    repoMapJSON := "repomap.json",
    elapsedMs := 3 }

/-- Witness for C8: with roots `["/b", "/a"]`, the child build call uses
project root `"/a"`. -/
theorem c8_witness :
    Ev.callBuildIndex ["/a/f.ts"] "/a" "default"
        ∈ (LspController.buildIndex cfgA envC false).trace ∧
    "/a" = resolveProjectRoot envC.workspaceFolders ∧
    resolveProjectRoot ["/b", "/a"] = "/a" :=
  ⟨by decide,
   (c8_sorted_head_project_root cfgA envC false).1 ["/a/f.ts"] "/a" "default" (by decide),
   (c8_sorted_head_project_root cfgA envC false).2.2⟩

/- ### Claim C1: concurrent buildIndex invocations -/

/-- The events performed by invocation `i` in a merged schedule `m` of
two invocations (`m` tags every event with the invocation, 0 or 1, that
performed it). -/
def taskEvents (i : Nat) (m : List (Nat × Ev)) : List Ev :=
  (m.filter (fun p => p.1 == i)).map Prod.snd

/-- `m` is a complete merged schedule of an invocation with trace `t₀` and
a second invocation with trace `t₁`: each invocation performs exactly its
own events in its own order.  Because no step of `buildIndex` reads
`_isIndexingInProgress` or otherwise blocks, every such order-preserving
merge is a possible execution of the single-threaded event loop, with
control handed over at the `await` points between the events. -/
def IsInterleavingOf (t₀ t₁ : List Ev) (m : List (Nat × Ev)) : Prop :=
  (∀ p ∈ m, p.1 = 0 ∨ p.1 = 1) ∧ taskEvents 0 m = t₀ ∧ taskEvents 1 m = t₁

/-- The value of the shared `_isIndexingInProgress` flag after a sequence
of events, starting from `flag0`. -/
def flagAfter (flag0 : Bool) (evs : List Ev) : Bool :=
  evs.foldl (fun f e => match e with | Ev.setFlag b => b | _ => f) flag0

/-- The second invocation (tag 1) performs its first event at a point
where `isIndexingInProgress()` returns true. -/
def startsWhileIndexing (m : List (Nat × Ev)) : Prop :=
  flagAfter false ((m.takeWhile (fun p => p.1 != 1)).map Prod.snd) = true

/-- The merged schedule is serial: all events of one invocation precede
all events of the other. -/
def serialSchedule (m : List (Nat × Ev)) : Prop :=
  m.map Prod.fst = (m.map Prod.fst).filter (fun i => i == 0) ++
      (m.map Prod.fst).filter (fun i => i == 1) ∨
  m.map Prod.fst = (m.map Prod.fst).filter (fun i => i == 1) ++
      (m.map Prod.fst).filter (fun i => i == 0)

instance (t₀ t₁ : List Ev) (m : List (Nat × Ev)) : Decidable (IsInterleavingOf t₀ t₁ m) :=
  inferInstanceAs (Decidable ((∀ p ∈ m, p.1 = 0 ∨ p.1 = 1) ∧
    taskEvents 0 m = t₀ ∧ taskEvents 1 m = t₁))

instance (m : List (Nat × Ev)) : Decidable (startsWhileIndexing m) :=
  inferInstanceAs (Decidable (flagAfter false
    ((m.takeWhile (fun p => p.1 != 1)).map Prod.snd) = true))

instance (m : List (Nat × Ev)) : Decidable (serialSchedule m) :=
  inferInstanceAs (Decidable (
    m.map Prod.fst = (m.map Prod.fst).filter (fun i => i == 0) ++
        (m.map Prod.fst).filter (fun i => i == 1) ∨
    m.map Prod.fst = (m.map Prod.fst).filter (fun i => i == 1) ++
        (m.map Prod.fst).filter (fun i => i == 0)))

/-- Claim C1 as stated: whenever a second `buildIndex` invocation begins
while `isIndexingInProgress()` is true, it is rejected or serialized and
never runs interleaved to completion with the in-flight build — that is,
every complete merged schedule of the two invocations in which the second
begins while the flag is true is serial. -/
def NoConcurrentSecondBuild : Prop :=
  ∀ (cfg : BuildIndexConfig) (env : BuildEnv) (m : List (Nat × Ev)),
    IsInterleavingOf (LspController.buildIndex cfg env false).trace
        (LspController.buildIndex cfg env true).trace m →
    startsWhileIndexing m →
    serialSchedule m

/-- A non-serial complete merged schedule of two `buildIndex` invocations
in environment `envA`: the second invocation starts right after the first
has set the flag and runs all the way to completion before the first
resumes. -/
def schedC1 : List (Nat × Ev) :=
  (((LspController.buildIndex cfgA envA false).trace.take 2).map (fun e => (0, e))) ++
    ((LspController.buildIndex cfgA envA true).trace.map (fun e => (1, e))) ++
    (((LspController.buildIndex cfgA envA false).trace.drop 2).map (fun e => (0, e)))

/-- Counterexample to C1: in `envA`, the schedule `schedC1` interleaves a
second invocation, begun while the flag is true, to completion with the
in-flight build — nothing in `buildIndex` rejects or serializes it, since
the method never reads `_isIndexingInProgress`. -/
theorem c1_counterexample : ¬ NoConcurrentSecondBuild := by
  intro h
  have hint : IsInterleavingOf (LspController.buildIndex cfgA envA false).trace
      (LspController.buildIndex cfgA envA true).trace schedC1 :=
    ⟨by decide, rfl, rfl⟩
  exact absurd (h cfgA envA schedC1 hint (by decide)) (by decide)

/-- Amended C1: `buildIndex` itself neither rejects nor serializes a
second invocation made while `isIndexingInProgress()` is true.  The
method never reads the flag: an invocation entered with the flag true
produces exactly the same event trace as one entered with it false,
still issues the child build call, and resolves normally.  Mutual
exclusion of builds is left entirely to callers checking
`isIndexingInProgress()`. -/
theorem c1_amended_no_guard_in_buildIndex (cfg : BuildIndexConfig) (env : BuildEnv)
    (flag0 : Bool) (files : List CollectedFile)
    (hne : env.workspaceFolders ≠ []) (hcol : env.collectResult = .ok files) :
    (LspController.buildIndex cfg env flag0).trace =
      (LspController.buildIndex cfg env false).trace ∧
    (LspController.buildIndex cfg env flag0).threw = none ∧
    Ev.callBuildIndex (files.map CollectedFile.fsPath)
        (resolveProjectRoot env.workspaceFolders)
        (if cfg.isVectorIndexEnabled then "all" else "default")
      ∈ (LspController.buildIndex cfg env flag0).trace := by
  have hne' := workspaceFolders_isEmpty_false env hne
  refine ⟨by simp [LspController.buildIndex, hne'], by simp [LspController.buildIndex, hne'], ?_⟩
  simp only [LspController.buildIndex, hne', Bool.false_eq_true, if_false, buildIndexTrySteps]
  rcases hb : env.buildIndexResult with b | e
  · cases b <;> simp [hcol, resolveProjectRoot]
  · simp [hcol, resolveProjectRoot]

/-- Witness for the amended C1: in `envA`, an invocation entered with the
flag already true still issues the child build call. -/
theorem c1_amended_witness :
    envA.workspaceFolders ≠ [] ∧
    (LspController.buildIndex cfgA envA true).threw = none ∧
    Ev.callBuildIndex ["/p/a.ts"] (resolveProjectRoot ["/p"]) "default"
      ∈ (LspController.buildIndex cfgA envA true).trace := by
  have h := c1_amended_no_guard_in_buildIndex cfgA envA true
    [{ fsPath := "/p/a.ts", fileSizeBytes := 2048 }] (by decide) rfl
  exact ⟨by decide, h.2.1, h.2.2⟩

/- ### Claim C4: install with a missing manifest dependency -/

/-- A per-platform/architecture dependency entry of the LSP manifest. -/
structure ManifestDep where
  name : String
  platform : String
  arch : String
  url : String
deriving DecidableEq

/-- The LSP manifest: a list of per-platform dependency entries. -/
structure Manifest where
  deps : List ManifestDep
deriving DecidableEq

/-- Modelled from the spec: `getDependency` is inherited from the
`LspDownloader` base class (`shared/fetchLsp`), whose source is not in
this subset.  Per the spec it "resolves platform-specific dependency
entries from a manifest": the entry with the requested name matching the
current platform/architecture, absent when the manifest has none
("Did not find LSP URL for platform arch", `lspController.ts:193`). -/
def getDependency (m : Manifest) (depName platform arch : String) : Option ManifestDep :=
  m.deps.find? (fun d => d.name == depName && d.platform == platform && d.arch == arch)

/-- Observable side effects of `LspController.install`. -/
inductive InstallEv where
  | logNoLspUrl
  | makeTempFolder (tempFolder : String)
  | downloadAndExtractServer (installLocation tempFolder : String)
  | installRuntime (dest runtimeTempPath : String)
  | removeTempFolder (tempFolder : String)
deriving DecidableEq

/-- External-call outcomes of one `install` invocation: the temp folder
created by `makeTemporaryToolkitFolder` (or the value it threw), and the
outcomes of `downloadAndExtractServer` and `installRuntime` (`none` means
the call succeeded). -/
structure InstallEnv where
  platform : String
  arch : String
  nodeBinName : String
  tempFolderResult : CallResult String
  downloadResult : Option Thrown
  runtimeResult : Option Thrown

/-- Result of one `install` invocation: its resolution (or the rethrown
value) and its side-effect trace. -/
structure InstallRun where
  result : CallResult Bool
  events : List InstallEv
deriving DecidableEq

/-- `LspController.install` (`lspController.ts:189-219`): resolve the
`qserver` and `node` entries; if either is absent, log and return false
with no side effects.  Otherwise create a temp folder, download/extract
the server, install the runtime, and remove the temp folder on every exit
path (the `finally` clause); a rejection inside the `try` block is
rethrown after the temp-folder removal. -/
def LspController.install (serverPath nodePath : String) (m : Manifest)
    (env : InstallEnv) : InstallRun :=
  let server := getDependency m "qserver" env.platform env.arch
  let runtime := getDependency m "node" env.platform env.arch
  if server.isNone || runtime.isNone then
    { result := .ok false, events := [.logNoLspUrl] }
  else
    match env.tempFolderResult with
    | .thrown e => { result := .thrown e, events := [] }
    | .ok tempFolder =>
      match env.downloadResult with
      | some e =>
        { result := .thrown e,
          events := [.makeTempFolder tempFolder,
                     .downloadAndExtractServer serverPath tempFolder,
                     .removeTempFolder tempFolder] }
      | none =>
        match env.runtimeResult with
        | some e =>
          { result := .thrown e,
            events := [.makeTempFolder tempFolder,
                       .downloadAndExtractServer serverPath tempFolder,
                       .installRuntime nodePath (tempFolder ++ "/" ++ env.nodeBinName),
                       .removeTempFolder tempFolder] }
        | none =>
          { result := .ok true,
            events := [.makeTempFolder tempFolder,
                       .downloadAndExtractServer serverPath tempFolder,
                       .installRuntime nodePath (tempFolder ++ "/" ++ env.nodeBinName),
                       .removeTempFolder tempFolder] }

/-- Claim C4: when the manifest lacks the `qserver` or the `node` entry
for the current platform/architecture, `install` returns false and its
only side effect is the log line — no temp folder, no download, no file
ever appears. -/
theorem c4_install_missing_dependency (serverPath nodePath : String) (m : Manifest)
    (env : InstallEnv)
    (h : getDependency m "qserver" env.platform env.arch = none ∨
         getDependency m "node" env.platform env.arch = none) :
    LspController.install serverPath nodePath m env =
      { result := .ok false, events := [.logNoLspUrl] } := by
  rcases h with h | h <;> simp [LspController.install, h]

/-- Witness for C4: the empty manifest has neither entry, so `install`
returns false having only logged. -/
theorem c4_witness :
    getDependency { deps := [] } "qserver" "linux" "x64" = none ∧
    LspController.install "/res/qserver" "/res/node" { deps := [] }
        { platform := "linux", arch := "x64", nodeBinName := "node",
          tempFolderResult := .ok "/tmp/t1", downloadResult := none, runtimeResult := none } =
      { result := .ok false, events := [.logNoLspUrl] } :=
  ⟨by decide,
   c4_install_missing_dependency "/res/qserver" "/res/node" { deps := [] } _ (Or.inl (by decide))⟩

/- ### Claim C9: cleanup idempotence -/

/-- Removal of a folder tree: the folder path and everything below it
stops existing.  Models a successful `tryRemoveFolder`
(`lspController.ts:179`). -/
def fsRemoveTree (fs : String → Bool) (p : String) : String → Bool :=
  fun q => if q = p ∨ (p ++ "/").data.isPrefixOf q.data then false else fs q

/-- `fs.delete` of a single path (`lspController.ts:183`). -/
def fsDeleteFile (fs : String → Bool) (p : String) : String → Bool :=
  fun q => if q = p then false else fs q

/-- First half of `cleanup`: remove the server folder if present
(`lspController.ts:178-180`).  Returns the new filesystem and the list of
paths a removal was issued for. -/
def cleanupStep1 (serverPath : String) (fs : String → Bool) : (String → Bool) × List String :=
  if fs serverPath then (fsRemoveTree fs serverPath, [serverPath]) else (fs, [])

/-- Second half of `cleanup`: delete the node binary if present
(`lspController.ts:182-184`). -/
def cleanupStep2 (nodePath : String) (fs : String → Bool) : (String → Bool) × List String :=
  if fs nodePath then (fsDeleteFile fs nodePath, [nodePath]) else (fs, [])

/-- Result of one `cleanup` invocation: its return value, the filesystem
it leaves behind (existence predicate on paths), and the removals it
issued. -/
structure CleanupRun where
  result : Bool
  fs : String → Bool
  removed : List String

/-- `LspController.cleanup` (`lspController.ts:177-187`): conditionally
remove the server folder, then conditionally delete the node binary, then
return true. -/
def LspController.cleanup (serverPath nodePath : String) (fs : String → Bool) : CleanupRun :=
  let s1 := cleanupStep1 serverPath fs
  let s2 := cleanupStep2 nodePath s1.1
  { result := true, fs := s2.1, removed := s1.2 ++ s2.2 }

theorem cleanupStep1_self (sp : String) (fs : String → Bool) :
    (cleanupStep1 sp fs).1 sp = false := by
  by_cases h : fs sp = true
  · simp [cleanupStep1, h, fsRemoveTree]
  · simp only [Bool.not_eq_true] at h
    simp [cleanupStep1, h]

theorem cleanupStep2_self (np : String) (fs : String → Bool) :
    (cleanupStep2 np fs).1 np = false := by
  by_cases h : fs np = true
  · simp [cleanupStep2, h, fsDeleteFile]
  · simp only [Bool.not_eq_true] at h
    simp [cleanupStep2, h]

theorem cleanupStep2_preserves_false (np q : String) (fs : String → Bool)
    (h : fs q = false) : (cleanupStep2 np fs).1 q = false := by
  by_cases hc : fs np = true
  · simp only [cleanupStep2, hc, if_true, fsDeleteFile]
    split <;> simp [h]
  · simp only [Bool.not_eq_true] at hc
    simp [cleanupStep2, hc, h]

theorem cleanupStep1_noop (sp : String) (fs : String → Bool) (h : fs sp = false) :
    cleanupStep1 sp fs = (fs, []) := by
  simp [cleanupStep1, h]

theorem cleanupStep2_noop (np : String) (fs : String → Bool) (h : fs np = false) :
    cleanupStep2 np fs = (fs, []) := by
  simp [cleanupStep2, h]

/-- After `cleanup`, neither the server path nor the node path exists. -/
theorem cleanup_paths_absent (sp np : String) (fs : String → Bool) :
    (LspController.cleanup sp np fs).fs sp = false ∧
    (LspController.cleanup sp np fs).fs np = false := by
  constructor
  · have h1 := cleanupStep1_self sp fs
    exact cleanupStep2_preserves_false np sp (cleanupStep1 sp fs).1 h1
  · exact cleanupStep2_self np (cleanupStep1 sp fs).1

/-- Claim C9: `cleanup` always returns true, and calling it again on the
filesystem it produced is a no-op: the second call observes both paths
absent, removes nothing, and leaves the filesystem unchanged. -/
theorem c9_cleanup_idempotent (sp np : String) (fs : String → Bool) :
    (LspController.cleanup sp np fs).result = true ∧
    (LspController.cleanup sp np (LspController.cleanup sp np fs).fs).result = true ∧
    (LspController.cleanup sp np (LspController.cleanup sp np fs).fs).fs
      = (LspController.cleanup sp np fs).fs ∧
    (LspController.cleanup sp np (LspController.cleanup sp np fs).fs).removed = [] := by
  obtain ⟨hsp, hnp⟩ := cleanup_paths_absent sp np fs
  refine ⟨rfl, rfl, ?_, ?_⟩
  · show (cleanupStep2 np (cleanupStep1 sp (LspController.cleanup sp np fs).fs).1).1
      = (LspController.cleanup sp np fs).fs
    rw [cleanupStep1_noop sp _ hsp]
    rw [cleanupStep2_noop np _ hnp]
  · show (cleanupStep1 sp (LspController.cleanup sp np fs).fs).2 ++
        (cleanupStep2 np (cleanupStep1 sp (LspController.cleanup sp np fs).fs).1).2 = []
    rw [cleanupStep1_noop sp _ hsp]
    rw [cleanupStep2_noop np _ hnp]
    rfl
